import Mathlib

/-!
Verification of the TwitchDropsMiner web-UI adapter core against its
natural-language specification.

The Python sources under `src/webui/` (modular package) and `src/webui.py`
(monolithic variant) are shallowly embedded below:

* Python attribute presence (`hasattr`/`getattr` with defaults) is modelled
  with `Option` fields; a truthiness test `hasattr(c, f) and c.f` becomes
  `(c.f).getD false`.
* Python `dict`s with insertion-order iteration are modelled as association
  lists in insertion order.
* Python floats arising from `current_minutes / required_minutes * 100` are
  modelled as rationals (`ℚ`); the campaign objects supply integral minute
  counts, so no floating-point rounding is observable in the claims treated
  here.
* Raising an exception is modelled with `Except`.
-/

/-- A drop belonging to a campaign.  The two minute counters are `Option`
because the Python code guards each access with `hasattr(drop, ...)`. -/
structure Drop where
  current_minutes : Option ℚ
  required_minutes : Option ℚ
deriving DecidableEq, Repr

/-- The `campaign.game` attribute: an object whose `name` attribute may be
absent (the code reads it with `getattr(campaign.game, 'name', '')`). -/
structure GameRef where
  name : Option String
deriving DecidableEq, Repr

/-- A live campaign object handed to the UI by the controller.  Every field
is `Option` because the Python code tests attribute presence with
`hasattr`/`getattr` before each use. -/
structure LiveCampaign where
  active : Option Bool
  upcoming : Option Bool
  expired : Option Bool
  eligible : Option Bool
  game : Option GameRef
  drops : Option (List Drop)
deriving DecidableEq, Repr

/-- A campaign with every attribute absent; used to build concrete examples
by record update. -/
def baseCampaign : LiveCampaign :=
  { active := none, upcoming := none, expired := none, eligible := none
    game := none, drops := none }

/-- `webui/utils.py`, `get_campaign_status`: derives the status string from
the campaign's truthy `active`/`upcoming`/`expired` attributes, in that
order, defaulting to `"Unknown"`. -/
def get_campaign_status (c : LiveCampaign) : String :=
  if c.active.getD false then "Active"
  else if c.upcoming.getD false then "Upcoming"
  else if c.expired.getD false then "Expired"
  else "Unknown"

/-- `webui/mock_classes.py`, `MockInventory._get_campaign_status`: the same
derivation, duplicated in the mock inventory class. -/
def mockInventory_get_campaign_status (c : LiveCampaign) : String :=
  if c.active.getD false then "Active"
  else if c.upcoming.getD false then "Upcoming"
  else if c.expired.getD false then "Expired"
  else "Unknown"

/-- Loop body of `webui/utils.py`, `get_campaign_progress`: return the
percentage of the first drop that has both minute attributes and a positive
`required_minutes`; drops failing the guard are skipped. -/
def progress_of_drops : List Drop → ℚ
  | [] => 0
  | d :: rest =>
    match d.current_minutes, d.required_minutes with
    | some cur, some req => if 0 < req then cur / req * 100 else progress_of_drops rest
    | _, _ => progress_of_drops rest

/-- `webui/utils.py`, `get_campaign_progress`: 0 when the campaign has no
`drops` attribute, otherwise the first qualifying drop's percentage. -/
def get_campaign_progress (c : LiveCampaign) : ℚ :=
  match c.drops with
  | some ds => progress_of_drops ds
  | none => 0

/-- Modelled from the spec's words, for comparison with
`get_campaign_progress`: "derived from the maximum of
(currentMinutes/requiredMinutes × 100) across constituent drops, 0 if no
drop reports minutes, clamped into [0,100]". -/
def spec_progressPercent (c : LiveCampaign) : ℚ :=
  let pcts := (c.drops.getD []).filterMap fun d =>
    match d.current_minutes, d.required_minutes with
    | some cur, some req => if 0 < req then some (cur / req * 100) else none
    | _, _ => none
  min 100 (max 0 (pcts.foldl max 0))

/-- Python's `str.lower()` as used on the status strings (all ASCII):
per-character lowercasing. -/
def lowerStr (s : String) : String := String.mk (s.data.map Char.toLower)

/-- The six named filter flags of the inventory panel
(`_inventory_filters` in both manager variants). -/
structure Filters where
  not_linked : Bool
  upcoming : Bool
  active : Bool
  expired : Bool
  excluded : Bool
  finished : Bool
deriving DecidableEq, Repr

/-- The default filter state: all six flags false. -/
def allFiltersOff : Filters :=
  { not_linked := false, upcoming := false, active := false
    expired := false, excluded := false, finished := false }

/-- The `campaign_data` dict built at ingestion time by
`refresh_inventory` / `MockInventory.add_campaign`: display strings, the
derived status string, the derived progress, and optionally the backing
live object (`campaign_obj`). -/
structure CampaignData where
  name : String
  game : String
  status : String
  progress : ℚ
  time_remaining : String
  campaign_obj : Option LiveCampaign
deriving DecidableEq, Repr

/-- `webui/utils.py`, `should_show_campaign_with_filters`: the visibility
predicate used by the modular inventory panel. -/
def should_show_campaign_with_filters (cd : CampaignData) (f : Filters) : Bool :=
  let status := lowerStr cd.status
  match cd.campaign_obj with
  | none =>
    let any_filter_enabled := f.not_linked || f.upcoming || f.active || f.expired ||
      f.excluded || f.finished
    if !any_filter_enabled then false
    else if status = "upcoming" then f.upcoming
    else if status = "active" then f.active
    else if status = "expired" then f.expired
    else if status = "finished" then f.finished
    else false
  | some c =>
    let eligible := c.eligible.getD true
    if f.not_linked && !eligible then false
    else if status = "upcoming" then f.upcoming
    else if status = "active" then f.active
    else if status = "expired" then f.expired
    else if status = "finished" then f.finished
    else true

/-- The controller's settings object as read by `_should_show_campaign`:
only the `exclude` game set is relevant, read with
`getattr(self._twitch.settings, 'exclude', set())`. -/
structure TwitchSettings where
  exclude : Option (List String)
deriving DecidableEq, Repr

/-- The `self._twitch` collaborator: `hasattr(self._twitch, 'settings')`
is modelled by the `Option`. -/
structure Twitch where
  settings : Option TwitchSettings
deriving DecidableEq, Repr

/-- `src/webui.py`, `WebUIManager._should_show_campaign`: the monolithic
variant of the visibility predicate; identical to
`should_show_campaign_with_filters` except for the excluded-game fallback
consulted after the four status buckets. -/
def should_show_campaign (tw : Twitch) (cd : CampaignData) (f : Filters) : Bool :=
  let status := lowerStr cd.status
  match cd.campaign_obj with
  | none =>
    let any_filter_enabled := f.not_linked || f.upcoming || f.active || f.expired ||
      f.excluded || f.finished
    if !any_filter_enabled then false
    else if status = "upcoming" then f.upcoming
    else if status = "active" then f.active
    else if status = "expired" then f.expired
    else if status = "finished" then f.finished
    else false
  | some c =>
    let eligible := c.eligible.getD true
    if f.not_linked && !eligible then false
    else if status = "upcoming" then f.upcoming
    else if status = "active" then f.active
    else if status = "expired" then f.expired
    else if status = "finished" then f.finished
    else
      match c.game, tw.settings with
      | some g, some st =>
        let game_name := g.name.getD ""
        let is_excluded := (st.exclude.getD []).contains game_name
        if is_excluded && !f.excluded then false else true
      | _, _ => true

/-- Looks up each of the four lifecycle buckets the way the visibility
predicates do, returning the corresponding flag, or `none` when the
(lower-cased) status matches no bucket. -/
def bucket_flag (status : String) (f : Filters) : Option Bool :=
  if status = "upcoming" then some f.upcoming
  else if status = "active" then some f.active
  else if status = "expired" then some f.expired
  else if status = "finished" then some f.finished
  else none

/-- The manager state touched by the claims under verification: the
`_close_requested` event's flag (`Running` is the flag being clear) and the
stored `_console_log` list.  The remaining `WebUIManager` attributes are UI
widget handles and collaborator references the claims never read. -/
structure WebUIManager where
  close_requested : Bool
  console_log : List String
deriving DecidableEq, Repr

/-- `WebUIManager.close`: sets the `_close_requested` event and returns 0. -/
def WebUIManager.close (m : WebUIManager) : WebUIManager × Int :=
  ({ m with close_requested := true }, 0)

/-- `WebUIManager.prevent_close`: clears the `_close_requested` event (the
follow-up `self.print` call is the logged rationale, not modelled here). -/
def WebUIManager.prevent_close (m : WebUIManager) : WebUIManager :=
  { m with close_requested := false }

/-- `WebUIManager.print`: appends `f"{timestamp}: {message}"` to the stored
`_console_log`.  The subsequent push into the live `ui.log` view (or the
fallback to standard output) does not touch the stored list and is omitted.
The wall-clock timestamp is passed in as a parameter. -/
def WebUIManager.print (m : WebUIManager) (timestamp message : String) : WebUIManager :=
  { m with console_log := m.console_log ++ [timestamp ++ ": " ++ message] }

/-- Outcome of `coro_unless_closed`: either the wrapped operation's result
is returned, or the `ExitRequest` exception is raised. -/
inductive RaceResult (α : Type) where
  | ok (a : α)
  | exitRequest
deriving DecidableEq, Repr

/-- `WebUIManager.coro_unless_closed`: races the wrapped coroutine against
`self._close_requested.wait()`, cancels the pending task, and then branches
on `self._close_requested.is_set()` — raising `ExitRequest` when the flag
is set, otherwise returning the completed operation's result.  The model
serialises the race: `m` is the manager state at the post-wait checkpoint,
so `m.close_requested` records whether `close` happened before the
operation completed.  The method never mutates the manager, so the state is
returned unchanged. -/
def coro_unless_closed {α : Type} (m : WebUIManager) (opResult : α) :
    RaceResult α × WebUIManager :=
  if m.close_requested then (RaceResult.exitRequest, m) else (RaceResult.ok opResult, m)

/-- One entry of the rebuilt inventory container after a refresh: the
empty-store placeholder label, the no-matches placeholder label, or one
campaign summary card. -/
inductive RenderedItem where
  | emptyPlaceholder
  | noMatchPlaceholder
  | campaignRow (cd : CampaignData)
deriving DecidableEq, Repr

/-- `webui/components/inventory_panel.py`, `refresh_inventory_display`:
clears the container and rebuilds it — the empty-store placeholder when no
campaigns are stored; otherwise one card per campaign passing
`should_show_campaign_with_filters`, in insertion order, with the
no-matches placeholder when zero cards were added.  The returned list is
the container's contents after the call (the clear discards whatever was
there before). -/
def refresh_inventory_display (campaigns : List CampaignData) (f : Filters) :
    List RenderedItem :=
  if campaigns.isEmpty then [RenderedItem.emptyPlaceholder]
  else
    let rows := (campaigns.filter fun cd => should_show_campaign_with_filters cd f).map
      RenderedItem.campaignRow
    if rows.isEmpty then [RenderedItem.noMatchPlaceholder] else rows

/-- One value of the `MockWebsocketStatus._items` dict. -/
structure WsEntry where
  status : String
  topics : Int
deriving DecidableEq, Repr

/-- `_items` as an insertion-ordered association list keyed by the
connection index. -/
abbrev WsItems := List (Int × WsEntry)

/-- Dict lookup on `_items`. -/
def wsLookup (items : WsItems) (idx : Int) : Option WsEntry :=
  (items.find? fun p => p.1 = idx).map fun p => p.2

/-- Dict assignment `_items[idx] = e`: overwrite in place when the key
exists, else append (Python dicts keep insertion order). -/
def wsSet (items : WsItems) (idx : Int) (e : WsEntry) : WsItems :=
  if items.any fun p => p.1 = idx then
    items.map fun p => if p.1 = idx then (idx, e) else p
  else items ++ [(idx, e)]

/-- The error raised by `MockWebsocketStatus.update` when both optional
fields are omitted (a `TypeError` in the source; the spec's taxonomy calls
it `InvalidArgument`). -/
inductive WsUpdateError where
  | invalidArgument
deriving DecidableEq, Repr

/-- `webui/mock_classes.py`, `MockWebsocketStatus.update`: rejects a call
with neither `status` nor `topics` before touching `_items`; otherwise
seeds `{status: "disconnected", topics: 0}` for a fresh index and applies
whichever fields were provided. -/
def ws_update (items : WsItems) (idx : Int) (status : Option String)
    (topics : Option Int) : Except WsUpdateError WsItems :=
  if status.isNone && topics.isNone then Except.error WsUpdateError.invalidArgument
  else
    let cur := (wsLookup items idx).getD { status := "disconnected", topics := 0 }
    let cur := match status with
      | some s => { cur with status := s }
      | none => cur
    let cur := match topics with
      | some t => { cur with topics := t }
      | none => cur
    Except.ok (wsSet items idx cur)

/-- The drops whose progress is used: a positive `required_minutes` with
both minute attributes present. -/
def drop_qualifies (d : Drop) : Bool :=
  match d.current_minutes, d.required_minutes with
  | some _, some req => decide (0 < req)
  | _, _ => false

/-- A campaign with two drops at 10% and 50% progress. -/
def twoDropCampaign : LiveCampaign :=
  { baseCampaign with
    drops := some [{ current_minutes := some 1, required_minutes := some 10 },
                   { current_minutes := some 5, required_minutes := some 10 }] }

/-- A campaign with one drop at 200% progress. -/
def overshootCampaign : LiveCampaign :=
  { baseCampaign with
    drops := some [{ current_minutes := some 200, required_minutes := some 100 }] }

/-- A synthetic active campaign for the C6 witness. -/
def cdActiveSyn : CampaignData :=
  { name := "a", game := "g", status := "Active", progress := 0, time_remaining := "",
    campaign_obj := none }

/-- A synthetic expired campaign for the C6 witness. -/
def cdExpiredSyn : CampaignData :=
  { name := "e", game := "g", status := "Expired", progress := 0, time_remaining := "",
    campaign_obj := none }

/-- C1: if the wrapped operation completes before `close` is called (so the
close flag is still clear at the post-wait check), `coro_unless_closed`
returns the operation's result and leaves the gate running; if `close` was
called before the operation completed, it raises `ExitRequest` instead of
returning a value. -/
theorem C1_race_outcomes {α : Type} (m : WebUIManager) (r : α)
    (hrun : m.close_requested = false) :
    (coro_unless_closed m r = (RaceResult.ok r, m)
      ∧ (coro_unless_closed m r).2.close_requested = false)
    ∧ ∀ m' : WebUIManager,
        (coro_unless_closed (WebUIManager.close m').1 r).1 = RaceResult.exitRequest := by
  refine ⟨⟨?_, ?_⟩, ?_⟩
  · simp [coro_unless_closed, hrun]
  · simp [coro_unless_closed, hrun]
  · intro m'
    simp [coro_unless_closed, WebUIManager.close]

/-- Witness for C1 at a concrete gate state and operation result. -/
theorem C1_race_outcomes_witness :
    coro_unless_closed { close_requested := false, console_log := [] } (7 : Nat)
      = (RaceResult.ok 7, { close_requested := false, console_log := [] }) :=
  ((C1_race_outcomes { close_requested := false, console_log := [] } 7 rfl).1).1

/-- C7: `MockWebsocketStatus.update` with both optional fields omitted
fails with the invalid-argument error before touching the state (the pure
model returns the error with no successor state, matching the raise that
precedes any mutation); the first update for an index seeds
`{status: "disconnected", topics: 0}` before applying the provided fields,
so `update(0, status="connected")` followed by `update(0, topics=5)` yields
`{status: "connected", topics: 5}`. -/
theorem C7_ws_update (items : WsItems) (idx : Int) :
    ws_update items idx none none = Except.error WsUpdateError.invalidArgument
    ∧ ws_update [] 0 (some "connected") none
        = Except.ok [(0, { status := "connected", topics := 0 })]
    ∧ (ws_update [] 0 (some "connected") none).bind
        (fun its => ws_update its 0 none (some 5))
        = Except.ok [(0, { status := "connected", topics := 5 })] :=
  ⟨rfl, rfl, rfl⟩

/-- C8: for a live-backed campaign with `eligible = false`, turning the
`not_linked` filter on hides the campaign, whatever its status string and
whatever the other five flags. -/
theorem C8_not_linked_hides (name game st tr : String) (p : ℚ)
    (c : LiveCampaign) (f : Filters) :
    should_show_campaign_with_filters
      { name := name, game := game, status := st, progress := p, time_remaining := tr,
        campaign_obj := some { c with eligible := some false } }
      { f with not_linked := true } = false := by
  simp [should_show_campaign_with_filters]

/-- On a live-backed campaign whose lower-cased status is not `"finished"`,
the modular visibility predicate never reads the `finished` flag. -/
theorem live_show_ignores_finished (cd : CampaignData) (c : LiveCampaign)
    (hobj : cd.campaign_obj = some c) (hst : lowerStr cd.status ≠ "finished")
    (f : Filters) (b₁ b₂ : Bool) :
    should_show_campaign_with_filters cd { f with finished := b₁ }
      = should_show_campaign_with_filters cd { f with finished := b₂ } := by
  unfold should_show_campaign_with_filters
  rw [hobj]
  dsimp only
  split_ifs <;> simp_all

/-- C10: the derived lifecycle status is computed with fixed precedence
(`Active`, else `Upcoming`, else `Expired`, else `Unknown`), identically in
`get_campaign_status` and `MockInventory._get_campaign_status`; it is never
`"Finished"`, so the visibility of an ingested live campaign (whose stored
status is the derived one) never depends on the `finished` filter flag. -/
theorem C10_status_derivation (c : LiveCampaign) (name game tr : String) (p : ℚ)
    (f : Filters) :
    get_campaign_status c ≠ "Finished"
    ∧ mockInventory_get_campaign_status c = get_campaign_status c
    ∧ (c.active.getD false = true → get_campaign_status c = "Active")
    ∧ (c.active.getD false = false → c.upcoming.getD false = true →
        get_campaign_status c = "Upcoming")
    ∧ (c.active.getD false = false → c.upcoming.getD false = false →
        c.expired.getD false = true → get_campaign_status c = "Expired")
    ∧ (c.active.getD false = false → c.upcoming.getD false = false →
        c.expired.getD false = false → get_campaign_status c = "Unknown")
    ∧ ∀ b₁ b₂ : Bool,
        should_show_campaign_with_filters
            { name := name, game := game, status := get_campaign_status c, progress := p,
              time_remaining := tr, campaign_obj := some c } { f with finished := b₁ }
          = should_show_campaign_with_filters
            { name := name, game := game, status := get_campaign_status c, progress := p,
              time_remaining := tr, campaign_obj := some c } { f with finished := b₂ } := by
  refine ⟨?_, ?_, ?_, ?_, ?_, ?_, ?_⟩
  · unfold get_campaign_status
    split_ifs <;> decide
  · unfold get_campaign_status mockInventory_get_campaign_status
    rfl
  · intro h₁
    simp [get_campaign_status, h₁]
  · intro h₁ h₂
    simp [get_campaign_status, h₁, h₂]
  · intro h₁ h₂ h₃
    simp [get_campaign_status, h₁, h₂, h₃]
  · intro h₁ h₂ h₃
    simp [get_campaign_status, h₁, h₂, h₃]
  · intro b₁ b₂
    apply live_show_ignores_finished _ c rfl
    unfold get_campaign_status
    split_ifs <;> (dsimp only; decide)

/-- Witness for C10 at a concrete campaign. -/
theorem C10_status_derivation_witness :
    get_campaign_status { baseCampaign with upcoming := some true } ≠ "Finished" :=
  (C10_status_derivation { baseCampaign with upcoming := some true } "n" "g" "" 0
    allFiltersOff).1

/-- Counterexample to C2: with all six filter flags false, a live-backed
campaign whose status string matches none of the four lifecycle buckets
(here the derived status `"Unknown"`) is shown, not hidden. -/
theorem C2_counterexample :
    should_show_campaign_with_filters
      { name := "n", game := "g", status := "Unknown", progress := 0, time_remaining := "",
        campaign_obj := some baseCampaign } allFiltersOff = true := by
  decide

/-- C2 as amended: with all six flags false, every synthetic campaign is
hidden and every live-backed campaign whose lower-cased status matches one
of the four lifecycle buckets is hidden; but a live-backed campaign whose
status matches no bucket is shown. -/
theorem C2_amended (name game st tr : String) (p : ℚ) (c : LiveCampaign) :
    should_show_campaign_with_filters
        { name := name, game := game, status := st, progress := p, time_remaining := tr,
          campaign_obj := none } allFiltersOff = false
    ∧ (∀ b : Bool, bucket_flag (lowerStr st) allFiltersOff = some b →
        should_show_campaign_with_filters
          { name := name, game := game, status := st, progress := p, time_remaining := tr,
            campaign_obj := some c } allFiltersOff = false)
    ∧ (bucket_flag (lowerStr st) allFiltersOff = none →
        should_show_campaign_with_filters
          { name := name, game := game, status := st, progress := p, time_remaining := tr,
            campaign_obj := some c } allFiltersOff = true) := by
  refine ⟨?_, ?_, ?_⟩
  · simp [should_show_campaign_with_filters, allFiltersOff]
  · intro b hb
    unfold should_show_campaign_with_filters
    unfold bucket_flag at hb
    dsimp only
    split_ifs at hb ⊢ <;> simp_all [allFiltersOff]
  · intro hb
    unfold should_show_campaign_with_filters
    unfold bucket_flag at hb
    dsimp only
    split_ifs at hb ⊢ <;> simp_all [allFiltersOff]

/-- Witness for C2 as amended: a live campaign with bucket status
`"Active"` is hidden under the all-false filter set. -/
theorem C2_amended_witness :
    should_show_campaign_with_filters
      { name := "n", game := "g", status := "Active", progress := 0, time_remaining := "",
        campaign_obj := some baseCampaign } allFiltersOff = false :=
  (C2_amended "n" "g" "Active" "" 0 baseCampaign).2.1 false (by decide)

/-- Counterexample to C3: the eligibility check precedes the status-bucket
checks, so a live-backed campaign with `eligible = false`, status
`"Active"`, `not_linked = true` and `active = true` is hidden — the call
does not return the corresponding bucket flag (which is true). -/
theorem C3_counterexample :
    should_show_campaign_with_filters
      { name := "n", game := "g", status := "Active", progress := 0, time_remaining := "",
        campaign_obj := some { baseCampaign with active := some true, eligible := some false } }
      { allFiltersOff with not_linked := true, active := true } = false
    ∧ ({ allFiltersOff with not_linked := true, active := true } : Filters).active = true := by
  decide

/-- C3 as amended: unless the not-linked rule fires first (`not_linked =
true` with `eligible = false`, which hides the campaign), a live-backed
campaign whose lower-cased status matches one of the four buckets gets the
corresponding flag as its visibility, independently of the `excluded` flag,
in both predicate variants; and in the monolithic variant
(`_should_show_campaign`), a live-backed campaign matching no bucket whose
game is in the settings' exclude list is hidden when `excluded = false`. -/
theorem C3_amended (tw : Twitch) (name game st tr : String) (p : ℚ)
    (c : LiveCampaign) (f : Filters)
    (helig : ¬(f.not_linked = true ∧ c.eligible.getD true = false)) :
    (∀ b eb : Bool, bucket_flag (lowerStr st) f = some b →
        should_show_campaign_with_filters
            { name := name, game := game, status := st, progress := p, time_remaining := tr,
              campaign_obj := some c } { f with excluded := eb } = b
        ∧ should_show_campaign tw
            { name := name, game := game, status := st, progress := p, time_remaining := tr,
              campaign_obj := some c } { f with excluded := eb } = b)
    ∧ (bucket_flag (lowerStr st) f = none →
        ∀ (g : GameRef) (sett : TwitchSettings), c.game = some g → tw.settings = some sett →
          (sett.exclude.getD []).contains (g.name.getD "") = true → f.excluded = false →
          should_show_campaign tw
            { name := name, game := game, status := st, progress := p, time_remaining := tr,
              campaign_obj := some c } f = false) := by
  have hguard : (f.not_linked && !(c.eligible.getD true)) = false := by
    cases hnl : f.not_linked <;> cases he : c.eligible.getD true <;> simp_all
  constructor
  · intro b eb hb
    unfold bucket_flag at hb
    constructor
    · unfold should_show_campaign_with_filters
      dsimp only
      split_ifs at hb ⊢ <;> simp_all
    · unfold should_show_campaign
      dsimp only
      split_ifs at hb ⊢ <;> simp_all
  · intro hb g sett hg hsett hmem hexcl
    unfold bucket_flag at hb
    unfold should_show_campaign
    dsimp only
    rw [hg, hsett]
    split_ifs at hb ⊢ <;> simp_all

/-- Witness for C3 as amended: a no-bucket live campaign whose game is in
the exclude list is hidden by the monolithic predicate when the `excluded`
flag is off. -/
theorem C3_amended_witness :
    should_show_campaign { settings := some { exclude := some ["Bad"] } }
      { name := "n", game := "Bad", status := "Weird", progress := 0, time_remaining := "",
        campaign_obj := some { baseCampaign with game := some { name := some "Bad" } } }
      allFiltersOff = false :=
  (C3_amended { settings := some { exclude := some ["Bad"] } } "n" "Bad" "Weird" "" 0
      { baseCampaign with game := some { name := some "Bad" } } allFiltersOff (by decide)).2
    (by decide) { name := some "Bad" } { exclude := some ["Bad"] } rfl rfl (by decide) rfl

/-- Counterexample to C4: `get_campaign_progress` returns the first drop's
percentage (10), not the maximum across drops (50, as the spec's formula
yields), and it does not clamp: a drop past its requirement yields 200,
outside [0,100]. -/
theorem C4_counterexample :
    get_campaign_progress twoDropCampaign = 10
    ∧ spec_progressPercent twoDropCampaign = 50
    ∧ get_campaign_progress twoDropCampaign ≠ spec_progressPercent twoDropCampaign
    ∧ get_campaign_progress overshootCampaign = 200
    ∧ 100 < get_campaign_progress overshootCampaign := by
  have h1 : get_campaign_progress twoDropCampaign = 10 := by
    norm_num [get_campaign_progress, twoDropCampaign, baseCampaign, progress_of_drops]
  have h2 : spec_progressPercent twoDropCampaign = 50 := by
    norm_num [spec_progressPercent, twoDropCampaign, baseCampaign, List.filterMap, List.foldl]
  have h3 : get_campaign_progress overshootCampaign = 200 := by
    norm_num [get_campaign_progress, overshootCampaign, baseCampaign, progress_of_drops]
  refine ⟨h1, h2, ?_, h3, ?_⟩
  · rw [h1, h2]
    norm_num
  · rw [h3]
    norm_num

/-- The percentage loop returns the first qualifying drop's percentage. -/
theorem progress_of_drops_eq_find (ds : List Drop) :
    progress_of_drops ds =
      match ds.find? drop_qualifies with
      | some d => d.current_minutes.getD 0 / d.required_minutes.getD 0 * 100
      | none => 0 := by
  induction ds with
  | nil => rfl
  | cons d rest ih =>
    unfold progress_of_drops
    rw [List.find?]
    cases hc : d.current_minutes with
    | none =>
      cases hr : d.required_minutes with
      | none => simpa [drop_qualifies, hc, hr] using ih
      | some req => simpa [drop_qualifies, hc, hr] using ih
    | some cur =>
      cases hr : d.required_minutes with
      | none => simpa [drop_qualifies, hc, hr] using ih
      | some req =>
        by_cases hreq : 0 < req
        · simp [drop_qualifies, hc, hr, hreq]
        · simpa [drop_qualifies, hc, hr, hreq] using ih

/-- C4 as amended: the derived progress is the percentage
`currentMinutes/requiredMinutes × 100` of the *first* drop that has both
minute attributes and a positive requirement; it is 0 when no drop
qualifies (in particular when the campaign has no `drops` attribute), and
it is not clamped into [0,100] (see the counterexample's 200). -/
theorem C4_amended (c : LiveCampaign) :
    get_campaign_progress c =
      match (c.drops.getD []).find? drop_qualifies with
      | some d => d.current_minutes.getD 0 / d.required_minutes.getD 0 * 100
      | none => 0 := by
  unfold get_campaign_progress
  cases hd : c.drops with
  | none => rfl
  | some ds => simpa [hd] using progress_of_drops_eq_find ds

/-- Counterexample to C5: the stored console log is unbounded — after 51
`print` calls, all 51 lines remain (exceeding the 50-line cap of the live
view widget, the only capacity constant in the code) and the oldest line is
still first, not evicted. -/
theorem C5_counterexample :
    (((List.range 51).map fun i => ("t", toString i)).foldl
        (fun (acc : WebUIManager) e => acc.print e.1 e.2)
        { close_requested := false, console_log := [] }).console_log.length = 51
    ∧ (((List.range 51).map fun i => ("t", toString i)).foldl
        (fun (acc : WebUIManager) e => acc.print e.1 e.2)
        { close_requested := false, console_log := [] }).console_log.head? = some "t: 0" := by
  refine ⟨by decide, by decide⟩

/-- C5 as amended: every `print` call appends its timestamped line to the
stored console log and no line is ever evicted — the log after any sequence
of prints is the old log followed by all the new lines in order (the
50-line cap applies only to the live `ui.log` view, not to the stored
list). -/
theorem C5_amended (m : WebUIManager) (entries : List (String × String)) :
    (entries.foldl (fun (acc : WebUIManager) e => acc.print e.1 e.2) m).console_log
      = m.console_log ++ entries.map fun e => e.1 ++ ": " ++ e.2 := by
  induction entries generalizing m with
  | nil => simp
  | cons e rest ih =>
    rw [List.foldl_cons, ih]
    simp [WebUIManager.print]

/-- C6: `refresh_inventory_display` replaces the container's contents
wholesale (clear-and-rebuild); on an empty store it renders exactly the
empty-store placeholder and zero campaign rows; on a non-empty store it
renders one summary row per stored campaign passing the filter predicate,
in insertion order, and exactly those; when zero rows result it renders the
no-matches placeholder, which is distinct from the empty-store
placeholder. -/
theorem C6_refresh (cs : List CampaignData) (f : Filters) (hne : cs ≠ []) :
    refresh_inventory_display [] f = [RenderedItem.emptyPlaceholder]
    ∧ ((cs.filter fun cd => should_show_campaign_with_filters cd f) ≠ [] →
        refresh_inventory_display cs f
          = (cs.filter fun cd => should_show_campaign_with_filters cd f).map
              RenderedItem.campaignRow)
    ∧ ((cs.filter fun cd => should_show_campaign_with_filters cd f) = [] →
        refresh_inventory_display cs f = [RenderedItem.noMatchPlaceholder])
    ∧ RenderedItem.noMatchPlaceholder ≠ RenderedItem.emptyPlaceholder := by
  refine ⟨rfl, ?_, ?_, by decide⟩
  · intro hvis
    unfold refresh_inventory_display
    simp [hne, hvis]
  · intro hvis
    unfold refresh_inventory_display
    simp [hne, hvis]

/-- Witness for C6: with the `active` flag on, a store holding one visible
(active) and one hidden (expired) campaign renders exactly one campaign
row. -/
theorem C6_refresh_witness :
    refresh_inventory_display [cdActiveSyn, cdExpiredSyn]
        { allFiltersOff with active := true }
      = [RenderedItem.campaignRow cdActiveSyn] := by
  have h := (C6_refresh [cdActiveSyn, cdExpiredSyn] { allFiltersOff with active := true }
    (by decide)).2.1 (by decide)
  rw [h]
  decide
